import Mathlib

/-!
Shallow embedding of the DonationRecordWithDB server (`server.js` plus the
two mongoose models `Account.js` and `Donor.js`).

The server is a thin Express app over MongoDB.  The embedding models:
* the two persisted collections as Lean lists (`List Account`, `List Donor`),
  with MongoDB's `_id` values modelled as `Nat`;
* the express-session state as a `Session` record.  The session object has a
  `user` field (written by the login route) and a `role` field (read by the
  register route; no route of the app ever writes it);
* JavaScript request-body fields that may be `undefined` as `Option` values;
* JavaScript numbers reaching the aggregation pipeline as `Int`, plus an
  explicit `nan` constructor for the result of `parseFloat` on a
  non-numeric query string;
* every JSON response body as a `JVal` tree, so that response-shape claims
  can be stated.
-/

/-- JavaScript string `trim`: drop whitespace from both ends (list form). -/
def jsTrimL (l : List Char) : List Char :=
  ((l.dropWhile Char.isWhitespace).reverse.dropWhile Char.isWhitespace).reverse

/-- JavaScript `String.prototype.trim`, as used by `username.trim()`. -/
def jsTrim (s : String) : String := ⟨jsTrimL s.data⟩

/-- Lower-casing a character list (JS `toLowerCase` restricted to ASCII). -/
def lowerL (l : List Char) : List Char := l.map Char.toLower

/-- Case-insensitive unanchored containment test: the model of matching a
field against `new RegExp(pat, 'i')` for a pattern without regex
metacharacters (the spec describes the filter as a case-insensitive
substring match). -/
def containsCI (field pat : String) : Bool :=
  decide (lowerL pat.data <:+: lowerL field.data)

/-- JavaScript falsiness of an optional string body/query field:
`undefined` and the empty string are falsy. -/
def falsy (o : Option String) : Bool := o.getD "" == ""

/-- Result of `parseFloat` on a provided (truthy) query string: a number,
or `nan` when the string does not parse as a number. -/
inductive JSNum where
  | nan
  | num (v : Int)
deriving DecidableEq

/-- JSON value trees, used to model every `res.json(...)` body. -/
inductive JVal where
  | str (s : String)
  | num (n : Int)
  | bool (b : Bool)
  | nul
  | arr (l : List JVal)
  | obj (fields : List (String × JVal))

/-- An `Account` document (`models/Account.js`): role, username, password,
plus the MongoDB `_id`. -/
structure Account where
  id : Nat
  role : String
  username : String
  password : String
deriving DecidableEq

/-- An account as returned by `Account.find().select('-password')`:
the same document with the password field projected away. -/
structure AccountView where
  id : Nat
  role : String
  username : String
deriving DecidableEq

/-- The `{ id, username, role }` object the login route stores in
`req.session.user` and returns as `user`. -/
structure SessionUser where
  id : Nat
  username : String
  role : String
deriving DecidableEq

/-- The express-session state.  `user` is written by `POST /api/login`;
`role` is read by `POST /api/register` (`req.session.role`) but no route
of the app ever writes it. -/
structure Session where
  user : Option SessionUser
  role : Option String
deriving DecidableEq

/-- A fresh session (also the result of `req.session.destroy`). -/
def emptySession : Session := ⟨none, none⟩

/-- An embedded donation document (`models/Donor.js` donation schema):
`{ amount: Number, date: String }` plus its subdocument `_id`. -/
structure Donation where
  id : Nat
  amount : Int
  date : String
deriving DecidableEq

/-- A `Donor` document: name, address, city and the embedded list of
donations. -/
structure Donor where
  id : Nat
  name : String
  address : String
  city : String
  donations : List Donation
deriving DecidableEq

/-- `Account.findOne({ username })`: first account with that exact
username. -/
def findAccount (store : List Account) (uname : String) : Option Account :=
  store.find? (fun a => a.username == uname)

/-- Modelled from the spec: `bcrypt.hash(password, 10)` is an external
library call ("hashes `password` with a salted one-way hash (cost factor
10)").  It is modelled as a tagged injection whose output carries the
bcrypt format prefix; as with real bcrypt digests, the digest is never
equal to the plaintext (the lengths differ). -/
def bcryptHash (p : String) : String := "$2b$10$" ++ p

/-- Outcome of `POST /api/register`. -/
inductive RegisterResult where
  | forbidden
  | missingFields
  | duplicate
  | created
deriving DecidableEq

/-- `POST /api/register` (server.js lines 58-78): rejects unless
`req.session.role === 'admin'`; then checks the three body fields for
falsiness; then checks for an existing username; otherwise persists a new
account whose password is the bcrypt hash of the plaintext.  `freshId`
models the `_id` MongoDB generates for the new document. -/
def register (store : List Account) (sess : Session)
    (role username password : Option String) (freshId : Nat) :
    List Account × RegisterResult :=
  if sess.role ≠ some "admin" then
    (store, .forbidden)
  else if falsy username || falsy password || falsy role then
    (store, .missingFields)
  else
    match findAccount store (username.getD "") with
    | some _ => (store, .duplicate)
    | none =>
        (store ++ [⟨freshId, role.getD "", username.getD "", bcryptHash (password.getD "")⟩],
         .created)

/-- Outcome of `POST /api/login`. -/
inductive LoginResult where
  | ok (u : SessionUser)
  | invalid
  | serverError
deriving DecidableEq

/-- `POST /api/login` (server.js lines 82-97).  When the body has no
`username`, `username.trim()` throws a `TypeError` which the `catch`
turns into the 500 "Server error" response; otherwise the account is
looked up by the trimmed username and the stored password string is
compared with `!==` against the plaintext from the body (note: the code
performs no bcrypt comparison).  On success `req.session.user` is set. -/
def login (store : List Account) (sess : Session)
    (username password : Option String) : Session × LoginResult :=
  match username with
  | none => (sess, .serverError)
  | some u =>
      match findAccount store (jsTrim u) with
      | none => (sess, .invalid)
      | some acc =>
          if password = some acc.password then
            ({ sess with user := some ⟨acc.id, acc.username, acc.role⟩ },
             .ok ⟨acc.id, acc.username, acc.role⟩)
          else
            (sess, .invalid)

/-- The query string of `GET /api/donors`.  `name`/`city` are the raw
query strings (`none` = absent).  `minTotal`/`maxTotal` hold the
`parseFloat` image of a provided truthy query string (`none` = absent or
empty, hence falsy, so the `$match` stage is not built for it). -/
structure DonorQuery where
  name : Option String
  city : Option String
  minTotal : Option JSNum
  maxTotal : Option JSNum
  sortBy : Option String
  sortOrder : Option String
deriving DecidableEq

/-- `if (name) filter.name = new RegExp(name, 'i')`: a provided non-empty
string filters the field case-insensitively, else no constraint. -/
def strFilterOk (o : Option String) (field : String) : Bool :=
  match o with
  | none => true
  | some pat => if pat == "" then true else containsCI field pat

/-- The `$match: filter` stage built from `name`/`city`. -/
def matchesFilter (q : DonorQuery) (d : Donor) : Bool :=
  strFilterOk q.name d.name && strFilterOk q.city d.city

/-- `$addFields: { totalDonation: { $sum: "$donations.amount" } }`:
the sum of the donor's donation amounts (0 for an empty list). -/
def totalDonation (d : Donor) : Int :=
  (d.donations.map Donation.amount).sum

/-- The pipeline prefix: `$match` on name/city then `$addFields` of
`totalDonation`. -/
def augmented (store : List Donor) (q : DonorQuery) : List (Donor × Int) :=
  (store.filter (matchesFilter q)).map (fun d => (d, totalDonation d))

/-- `totalDonation: { $gte: bound }` where `bound` is a parsed float:
false whenever the bound is `NaN`. -/
def geJS (t : Int) (m : JSNum) : Bool :=
  match m with
  | .num a => decide (a ≤ t)
  | .nan => false

/-- `totalDonation: { $lte: bound }`: false whenever the bound is `NaN`. -/
def leJS (t : Int) (m : JSNum) : Bool :=
  match m with
  | .num b => decide (t ≤ b)
  | .nan => false

/-- The conditional second `$match` stage (server.js lines 130-135): it is
only added when `minTotal || maxTotal` is truthy, and then constrains
`totalDonation` by whichever bounds were provided. -/
def passesBounds (q : DonorQuery) (t : Int) : Bool :=
  if q.minTotal.isSome || q.maxTotal.isSome then
    (match q.minTotal with
     | some m => geJS t m
     | none => true) &&
    (match q.maxTotal with
     | some m => leJS t m
     | none => true)
  else
    true

/-- A BSON value as seen by `$sort`: the fields of the augmented donor
documents are numbers or strings; any other `sortBy` key is missing.
In the BSON comparison order, missing sorts below numbers, numbers below
strings. -/
inductive BsonVal where
  | missing
  | num (v : Int)
  | str (s : String)
deriving DecidableEq

/-- Lexicographic order on character lists (BSON string comparison). -/
def lexLe : List Char → List Char → Bool
  | [], _ => true
  | _ :: _, [] => false
  | a :: as, b :: bs => if a = b then lexLe as bs else decide (a < b)

/-- BSON `≤` on the sortable values. -/
def bsonLe : BsonVal → BsonVal → Bool
  | .missing, _ => true
  | .num _, .missing => false
  | .num a, .num b => decide (a ≤ b)
  | .num _, .str _ => true
  | .str _, .missing => false
  | .str _, .num _ => false
  | .str a, .str b => lexLe a.data b.data

/-- The value of field `f` in an augmented donor document, for `$sort`. -/
def sortFieldVal (p : Donor × Int) (f : String) : BsonVal :=
  if f == "name" then .str p.1.name
  else if f == "address" then .str p.1.address
  else if f == "city" then .str p.1.city
  else if f == "totalDonation" then .num p.2
  else if f == "_id" then .num p.1.id
  else .missing

/-- The `$sort` comparator: ascending on the `sortBy` field unless
`sortOrder === 'desc'`. -/
def sortLe (sortOrder : Option String) (f : String) (a b : Donor × Int) : Bool :=
  if sortOrder == some "desc" then
    bsonLe (sortFieldVal b f) (sortFieldVal a f)
  else
    bsonLe (sortFieldVal a f) (sortFieldVal b f)

/-- `GET /api/donors` (server.js lines 112-147): the aggregation pipeline
`$match` (name/city) → `$addFields` (totalDonation) → optional `$match`
(bounds) → optional `$sort`.  The sort is modelled as a sort by the BSON
comparator; the claims below depend on it only through membership, i.e.
up to permutation. -/
def listDonors (store : List Donor) (q : DonorQuery) : List (Donor × Int) :=
  let afterBounds := (augmented store q).filter (fun p => passesBounds q p.2)
  match q.sortBy with
  | none => afterBounds
  | some f => List.insertionSort (fun a b => sortLe q.sortOrder f a b = true) afterBounds

/-- `Donor.findById`. -/
def findDonor (store : List Donor) (donorId : Nat) : Option Donor :=
  store.find? (fun d => d.id == donorId)

/-- `donor.save()` after in-memory mutation: the document with the
donor's `_id` is written back; every other document is untouched. -/
def saveDonor (store : List Donor) (d : Donor) : List Donor :=
  store.map (fun x => if x.id == d.id then d else x)

/-- `DELETE /api/donors/:id` (server.js lines 150-160):
`Donor.findByIdAndDelete` removes the document with that `_id` (if any)
and reports whether one was found. -/
def deleteDonor (store : List Donor) (donorId : Nat) : List Donor × Bool :=
  match findDonor store donorId with
  | none => (store, false)
  | some _ => (store.filter (fun d => !(d.id == donorId)), true)

/-- `POST /api/donors/:id/donations` (server.js lines 163-170): push a new
donation `{ amount, date }` (with a fresh subdocument `_id`) onto the
donor's list and save. -/
def addDonation (store : List Donor) (donorId : Nat) (amount : Int)
    (date : String) (freshId : Nat) : List Donor × Option Donor :=
  match findDonor store donorId with
  | none => (store, none)
  | some donor =>
      let donor' := { donor with donations := donor.donations ++ [⟨freshId, amount, date⟩] }
      (saveDonor store donor', some donor')

/-- Mutating the subdocument returned by `donor.donations.id(donationId)`:
only the first donation with that id is affected. -/
def updateFirst (donationId : Nat) (f : Donation → Donation) :
    List Donation → List Donation
  | [] => []
  | dn :: rest =>
      if dn.id == donationId then f dn :: rest
      else dn :: updateFirst donationId f rest

/-- `donation.amount = req.body.amount ?? donation.amount` and likewise
for `date`: a nullish body field leaves the prior value. -/
def applyUpd (amount : Option Int) (date : Option String) (dn : Donation) : Donation :=
  { dn with amount := amount.getD dn.amount, date := date.getD dn.date }

/-- Outcome of `PUT /api/donors/:donorId/donations/:donationId`. -/
inductive UpdOutcome where
  | donorNotFound
  | donationNotFound
  | updated (donor : Donor)
deriving DecidableEq

/-- `PUT /api/donors/:donorId/donations/:donationId` (server.js lines
172-185): 404 if the donor is missing, 404 if the donation is missing in
that donor; otherwise the found donation's fields are overwritten by the
supplied body fields (`??` keeps prior values) and the donor is saved. -/
def updateDonation (store : List Donor) (donorId donationId : Nat)
    (amount : Option Int) (date : Option String) : List Donor × UpdOutcome :=
  match findDonor store donorId with
  | none => (store, .donorNotFound)
  | some donor =>
      match donor.donations.find? (fun dn => dn.id == donationId) with
      | none => (store, .donationNotFound)
      | some _ =>
          let donor' :=
            { donor with donations := updateFirst donationId (applyUpd amount date) donor.donations }
          (saveDonor store donor', .updated donor')

/-- `DELETE /api/donors/:donorId/donations/:donationId` (server.js lines
187-196): 404 if the donor is missing; otherwise every donation whose id
stringifies to the path parameter is filtered out and the donor saved
(a no-op on the list when no donation matches). -/
def removeDonation (store : List Donor) (donorId donationId : Nat) :
    List Donor × Option Donor :=
  match findDonor store donorId with
  | none => (store, none)
  | some donor =>
      let donor' := { donor with donations := donor.donations.filter (fun dn => !(dn.id == donationId)) }
      (saveDonor store donor', some donor')

/-- `Account.find().select('-password')` (server.js line 200): all
accounts with the password projected away. -/
def accountView (a : Account) : AccountView := ⟨a.id, a.role, a.username⟩

/-- `GET /api/accounts` handler's query. -/
def listAccounts (store : List Account) : List AccountView :=
  store.map accountView

/-- `PUT /api/accounts/:id` (server.js lines 205-209):
`findByIdAndUpdate(id, { username, role })`; mongoose strips undefined
update fields, so an absent body field leaves the stored value; an absent
id is a silent no-op. -/
def updateAccount (store : List Account) (accId : Nat)
    (username role : Option String) : List Account :=
  store.map (fun a =>
    if a.id == accId then
      { a with username := username.getD a.username, role := role.getD a.role }
    else a)

/-- `DELETE /api/accounts/:id` (server.js lines 212-215): unconditional
delete by id, no-op when absent. -/
def deleteAccount (store : List Account) (accId : Nat) : List Account :=
  store.filter (fun a => !(a.id == accId))

/-!
## The HTTP layer

`Request` enumerates the JSON API endpoints (the static `GET /` page is
not part of the JSON API).  `handle` is the router: the `requireLogin`
middleware is mounted with `app.use` on the `/api/donors` and
`/api/donations` path prefixes only (server.js lines 107-109), so it
gates exactly the donor/donation routes; the account routes are mounted
after it but on the `/api/accounts` prefix, which is not guarded.
-/

/-- One request to a JSON API endpoint, with its parsed body/params.
`freshId` arguments model the `_id`s MongoDB generates on insert. -/
inductive Request where
  | registerReq (role username password : Option String) (freshId : Nat)
  | loginReq (username password : Option String)
  | logoutReq
  | listDonorsReq (q : DonorQuery)
  | deleteDonorReq (donorId : Nat)
  | addDonationReq (donorId : Nat) (amount : Int) (date : String) (freshId : Nat)
  | updateDonationReq (donorId donationId : Nat) (amount : Option Int) (date : Option String)
  | removeDonationReq (donorId donationId : Nat)
  | listAccountsReq
  | updateAccountReq (accId : Nat) (username role : Option String)
  | deleteAccountReq (accId : Nat)
deriving DecidableEq

/-- Which requests hit the `requireLogin` middleware: exactly those whose
path falls under the mounted prefixes `/api/donors` and `/api/donations`
(all five donor/donation routes; nothing else). -/
def guarded : Request → Bool
  | .listDonorsReq _ => true
  | .deleteDonorReq _ => true
  | .addDonationReq _ _ _ _ => true
  | .updateDonationReq _ _ _ _ => true
  | .removeDonationReq _ _ => true
  | _ => false

/-- The full server state: the two MongoDB collections and the caller's
session. -/
structure AppState where
  accounts : List Account
  donors : List Donor
  sess : Session
deriving DecidableEq

/-- JSON encoding of an embedded donation document. -/
def donationToJ (dn : Donation) : JVal :=
  .obj [("_id", .num dn.id), ("amount", .num dn.amount), ("date", .str dn.date)]

/-- JSON encoding of a donor document. -/
def donorToJ (d : Donor) : JVal :=
  .obj [("_id", .num d.id), ("name", .str d.name), ("address", .str d.address),
        ("city", .str d.city), ("donations", .arr (d.donations.map donationToJ))]

/-- JSON encoding of an aggregated donor document (with the
`totalDonation` field added by `$addFields`). -/
def donorTotalToJ (p : Donor × Int) : JVal :=
  .obj [("_id", .num p.1.id), ("name", .str p.1.name), ("address", .str p.1.address),
        ("city", .str p.1.city), ("donations", .arr (p.1.donations.map donationToJ)),
        ("totalDonation", .num p.2)]

/-- JSON encoding of a password-less account document. -/
def accountViewToJ (a : AccountView) : JVal :=
  .obj [("_id", .num a.id), ("role", .str a.role), ("username", .str a.username)]

/-- JSON encoding of the `{ id, username, role }` session user. -/
def sessionUserToJ (u : SessionUser) : JVal :=
  .obj [("id", .num u.id), ("username", .str u.username), ("role", .str u.role)]

/-- A `res.json({ success, message })` body. -/
def msgBody (success : Bool) (message : String) : JVal :=
  .obj [("success", .bool success), ("message", .str message)]

/-- A `res.json({ success: true, <key>: <payload> })` body. -/
def dataBody (key : String) (v : JVal) : JVal :=
  .obj [("success", .bool true), (key, v)]

/-- Status and body for each register outcome (server.js lines 58-78). -/
def registerStatusBody : RegisterResult → Nat × JVal
  | .forbidden => (403, msgBody false "Only admin can create accounts.")
  | .missingFields => (200, msgBody false "All fields are required.")
  | .duplicate => (200, msgBody false "Username already exists.")
  | .created => (200, msgBody true "Account created successfully.")

/-- Status and body for each login outcome (server.js lines 82-97); the
success body carries both the message and the `user` payload. -/
def loginStatusBody : LoginResult → Nat × JVal
  | .serverError => (500, msgBody false "Server error")
  | .invalid => (401, msgBody false "Invalid credentials")
  | .ok u => (200, .obj [("success", .bool true), ("message", .str "Login successful"),
                         ("user", sessionUserToJ u)])

/-- Status and body for `DELETE /api/donors/:id`. -/
def deleteDonorStatusBody : Bool → Nat × JVal
  | true => (200, msgBody true "Donor removed")
  | false => (404, msgBody false "Donor not found")

/-- Status and body for the donation routes that answer with
`{ success: true, donor }` or a donor 404. -/
def donorStatusBody : Option Donor → Nat × JVal
  | some d => (200, dataBody "donor" (donorToJ d))
  | none => (404, msgBody false "Donor not found")

/-- Status and body for `PUT /api/donors/:donorId/donations/:donationId`. -/
def updStatusBody : UpdOutcome → Nat × JVal
  | .donorNotFound => (404, msgBody false "Donor not found")
  | .donationNotFound => (404, msgBody false "Donation not found")
  | .updated d => (200, dataBody "donor" (donorToJ d))

/-- The router: the `requireLogin` guard first (for the guarded prefixes),
then the matched route handler.  Returns the next server state, the HTTP
status and the JSON body. -/
def handle (st : AppState) (req : Request) : AppState × Nat × JVal :=
  if guarded req && st.sess.user.isNone then
    (st, 401, msgBody false "Unauthorized. Please log in.")
  else
    match req with
    | .registerReq role username password freshId =>
        let pr := register st.accounts st.sess role username password freshId
        ({ st with accounts := pr.1 }, registerStatusBody pr.2)
    | .loginReq username password =>
        let pr := login st.accounts st.sess username password
        ({ st with sess := pr.1 }, loginStatusBody pr.2)
    | .logoutReq =>
        ({ st with sess := emptySession }, 200, msgBody true "Logged out")
    | .listDonorsReq q =>
        (st, 200, dataBody "donors" (.arr ((listDonors st.donors q).map donorTotalToJ)))
    | .deleteDonorReq donorId =>
        let pr := deleteDonor st.donors donorId
        ({ st with donors := pr.1 }, deleteDonorStatusBody pr.2)
    | .addDonationReq donorId amount date freshId =>
        let pr := addDonation st.donors donorId amount date freshId
        ({ st with donors := pr.1 }, donorStatusBody pr.2)
    | .updateDonationReq donorId donationId amount date =>
        let pr := updateDonation st.donors donorId donationId amount date
        ({ st with donors := pr.1 }, updStatusBody pr.2)
    | .removeDonationReq donorId donationId =>
        let pr := removeDonation st.donors donorId donationId
        ({ st with donors := pr.1 }, donorStatusBody pr.2)
    | .listAccountsReq =>
        (st, 200, .arr ((listAccounts st.accounts).map accountViewToJ))
    | .updateAccountReq accId username role =>
        ({ st with accounts := updateAccount st.accounts accId username role },
         200, msgBody true "Account updated successfully.")
    | .deleteAccountReq accId =>
        ({ st with accounts := deleteAccount st.accounts accId },
         200, msgBody true "Account deleted successfully.")

/-- Is this JSON value a boolean? -/
def isBoolJ : JVal → Bool
  | .bool _ => true
  | _ => false

/-- Does the object field list carry a boolean under key `success`? -/
def hasSuccessBool (fields : List (String × JVal)) : Bool :=
  fields.any (fun kv => kv.1 == "success" && isBoolJ kv.2)

/-- Does the object field list carry the given key? -/
def hasKey (fields : List (String × JVal)) (k : String) : Bool :=
  fields.any (fun kv => kv.1 == k)

/-- The spec's response envelope: a JSON object with a boolean `success`
and either a `message` or one of the data payload keys (`donors`,
`donor`, `accounts`, `user`). -/
def envelopeOk : JVal → Bool
  | .obj fields =>
      hasSuccessBool fields &&
        (hasKey fields "message" || hasKey fields "donors" || hasKey fields "donor" ||
         hasKey fields "accounts" || hasKey fields "user")
  | _ => false

/-- "within the inclusive lower bound, when one was given". -/
def loOkB (mi : Option Int) (t : Int) : Bool :=
  match mi with
  | some a => decide (a ≤ t)
  | none => true

/-- "within the inclusive upper bound, when one was given". -/
def hiOkB (ma : Option Int) (t : Int) : Bool :=
  match ma with
  | some b => decide (t ≤ b)
  | none => true

/-- The donor store restricted to donors whose id differs from `donorId`:
the frame a donor mutation must preserve. -/
def restNe (donorId : Nat) (store : List Donor) : List Donor :=
  store.filter (fun d => !(d.id == donorId))

/-!
## Helper lemmas
-/

/-- A bcrypt digest is never the plaintext it hashes (the format tag
lengthens it). -/
theorem bcryptHash_ne_plaintext (p : String) : bcryptHash p ≠ p := by
  intro h
  have hl := congrArg String.length h
  rw [bcryptHash] at hl
  rw [String.length_append] at hl
  have h7 : ("$2b$10$" : String).length = 7 := rfl
  rw [h7] at hl
  omega

/-- Membership in the aggregation result is membership in the
bounds-filtered augmented list: the optional `$sort` only permutes. -/
theorem mem_listDonors_iff (store : List Donor) (q : DonorQuery) (p : Donor × Int) :
    p ∈ listDonors store q ↔
      p ∈ (augmented store q).filter (fun x => passesBounds q x.2) := by
  unfold listDonors
  cases hs : q.sortBy with
  | none => simp
  | some f => exact (List.perm_insertionSort _ _).mem_iff

/-- With numeric (or absent) bounds, the conditional `$match` stage is the
conjunction of the inclusive comparisons. -/
theorem passesBounds_numeric (q : DonorQuery) (mi ma : Option Int) (t : Int)
    (hmin : q.minTotal = mi.map JSNum.num) (hmax : q.maxTotal = ma.map JSNum.num) :
    passesBounds q t = (loOkB mi t && hiOkB ma t) := by
  cases mi <;> cases ma <;> simp [passesBounds, hmin, hmax, geJS, leJS, loOkB, hiOkB]

/-- The login route writes only the session `user` field; `session.role`
is untouched on every path through it. -/
theorem login_preserves_session_role (store : List Account) (sess : Session)
    (username password : Option String) :
    (login store sess username password).1.role = sess.role := by
  cases username with
  | none => rfl
  | some u =>
      cases hf : findAccount store (jsTrim u) with
      | none => simp [login, hf]
      | some acc =>
          by_cases hp : password = some acc.password <;> simp [login, hf, hp]

/-- `msgBody` responses satisfy the response envelope. -/
theorem envelopeOk_msgBody (b : Bool) (m : String) :
    envelopeOk (msgBody b m) = true := by
  simp [envelopeOk, msgBody, hasSuccessBool, hasKey, isBoolJ]

/-- `{ success: true, donor }` responses satisfy the envelope. -/
theorem envelopeOk_dataBody_donor (v : JVal) :
    envelopeOk (dataBody "donor" v) = true := by
  simp [envelopeOk, dataBody, hasSuccessBool, hasKey, isBoolJ]

/-- `{ success: true, donors }` responses satisfy the envelope. -/
theorem envelopeOk_dataBody_donors (v : JVal) :
    envelopeOk (dataBody "donors" v) = true := by
  simp [envelopeOk, dataBody, hasSuccessBool, hasKey, isBoolJ]

/-- Every register response satisfies the envelope. -/
theorem envelopeOk_registerStatusBody (r : RegisterResult) :
    envelopeOk (registerStatusBody r).2 = true := by
  cases r <;> simp [registerStatusBody, envelopeOk_msgBody]

/-- Every login response satisfies the envelope. -/
theorem envelopeOk_loginStatusBody (r : LoginResult) :
    envelopeOk (loginStatusBody r).2 = true := by
  cases r with
  | ok u => simp [loginStatusBody, envelopeOk, hasSuccessBool, hasKey, isBoolJ]
  | invalid => simp [loginStatusBody, envelopeOk_msgBody]
  | serverError => simp [loginStatusBody, envelopeOk_msgBody]

/-- Every donor-delete response satisfies the envelope. -/
theorem envelopeOk_deleteDonorStatusBody (b : Bool) :
    envelopeOk (deleteDonorStatusBody b).2 = true := by
  cases b <;> simp [deleteDonorStatusBody, envelopeOk_msgBody]

/-- Every donation add/remove response satisfies the envelope. -/
theorem envelopeOk_donorStatusBody (o : Option Donor) :
    envelopeOk (donorStatusBody o).2 = true := by
  cases o <;> simp [donorStatusBody, envelopeOk_msgBody, envelopeOk_dataBody_donor]

/-- Every donation-update response satisfies the envelope. -/
theorem envelopeOk_updStatusBody (r : UpdOutcome) :
    envelopeOk (updStatusBody r).2 = true := by
  cases r <;> simp [updStatusBody, envelopeOk_msgBody, envelopeOk_dataBody_donor]

/-- Splitting a donation list at the first donation with the given id:
relates `find?` (the lookup `donations.id(...)` performs) with
`updateFirst` (the in-place mutation of the found subdocument). -/
theorem find?_split_updateFirst (donationId : Nat) (f : Donation → Donation)
    (l : List Donation) (dn : Donation)
    (h : l.find? (fun x => x.id == donationId) = some dn) :
    ∃ pre post, l = pre ++ dn :: post
      ∧ (∀ x ∈ pre, ¬(x.id = donationId))
      ∧ dn.id = donationId
      ∧ updateFirst donationId f l = pre ++ f dn :: post := by
  induction l with
  | nil => simp at h
  | cons a as ih =>
      cases ha : (a.id == donationId) with
      | true =>
          have hadn : a = dn := by
            rw [@List.find?_cons_of_pos _ (fun x => x.id == donationId) a as ha] at h
            exact Option.some.inj h
          subst hadn
          exact ⟨[], as, rfl, by simp, by rwa [beq_iff_eq] at ha,
            by simp [updateFirst, ha]⟩
      | false =>
          rw [@List.find?_cons_of_neg _ (fun x => x.id == donationId) a as
            (by simp [ha])] at h
          rcases ih h with ⟨pre, post, h1, h2, h3, h4⟩
          refine ⟨a :: pre, post, by simp [h1], ?_, h3, by simp [updateFirst, ha, h4]⟩
          intro x hx
          rcases List.mem_cons.1 hx with hxa | hxm
          · subst hxa
            simpa using ha
          · exact h2 x hxm

/-- The donor found by `findById` has the id that was looked up. -/
theorem findDonor_id (store : List Donor) (donorId : Nat) (donor : Donor)
    (h : findDonor store donorId = some donor) : donor.id = donorId := by
  have hp := List.find?_some h
  rwa [beq_iff_eq] at hp

/-- Saving a document with id `X` back does not change the sub-store of
documents whose id differs from `X`. -/
theorem restNe_saveDonor (store : List Donor) (d : Donor) (X : Nat) (h : d.id = X) :
    restNe X (saveDonor store d) = restNe X store := by
  induction store with
  | nil => rfl
  | cons a as ih =>
      show restNe X ((if a.id == d.id then d else a) :: saveDonor as d)
        = restNe X (a :: as)
      cases ha : (a.id == d.id) with
      | true =>
          have haX : (a.id == X) = true := by
            rw [beq_iff_eq] at ha ⊢
            rw [ha, h]
          have hdX : (d.id == X) = true := by rw [beq_iff_eq]; exact h
          simp [restNe, List.filter_cons, ha, haX, hdX] at ih ⊢
          exact ih
      | false =>
          simp [restNe, List.filter_cons, ha] at ih ⊢
          cases hax : (a.id == X) <;> simp [hax, ih]

/-!
## The claims
-/

/-- Claim C1 (refuted; the spec states the intended behavior and the code
slips): register persists the bcrypt digest, but the login route compares
the stored string against the plaintext with `!==` instead of a bcrypt
comparison, so a login with the plaintext used at registration is
rejected with `Invalid credentials` (401).  Evaluated at a concrete
failing input (an admin-role session registers "alice"/"pw", then "alice"
logs in with "pw"), together with the general fact that a digest never
equals its plaintext. -/
theorem c1_register_then_login_fails :
    register [] ⟨none, some "admin"⟩ (some "user") (some "alice") (some "pw") 1
      = ([⟨1, "user", "alice", "$2b$10$pw"⟩], .created)
    ∧ login [⟨1, "user", "alice", "$2b$10$pw"⟩] ⟨none, none⟩ (some "alice") (some "pw")
      = (⟨none, none⟩, .invalid)
    ∧ (∀ p : String, bcryptHash p ≠ p) :=
  ⟨by decide, by decide, bcryptHash_ne_plaintext⟩

/-- Claim C2 (refuted; the spec states the intended behavior and the code
slips): the register route tests `req.session.role`, but the login route
only ever writes `req.session.user` — no code path writes
`session.role`.  Evaluated at a concrete failing input: after a
successful login of an account with role "admin", register still answers
`Forbidden`; in general register answers `Forbidden` whenever
`session.role` is unset, and login never changes `session.role`. -/
theorem c2_register_forbidden_even_for_admin_session :
    login [⟨1, "admin", "root", "pw"⟩] ⟨none, none⟩ (some "root") (some "pw")
      = (⟨some ⟨1, "root", "admin"⟩, none⟩, .ok ⟨1, "root", "admin"⟩)
    ∧ register [⟨1, "admin", "root", "pw"⟩] ⟨some ⟨1, "root", "admin"⟩, none⟩
        (some "user") (some "alice") (some "secret") 2
      = ([⟨1, "admin", "root", "pw"⟩], .forbidden)
    ∧ (∀ (store : List Account) (sess : Session) (role username password : Option String)
        (freshId : Nat), sess.role = none →
          (register store sess role username password freshId).2 = .forbidden)
    ∧ (∀ (store : List Account) (sess : Session) (username password : Option String),
        (login store sess username password).1.role = sess.role) := by
  refine ⟨by decide, by decide, ?_, login_preserves_session_role⟩
  intro store sess role username password freshId hr
  simp [register, hr]

/-- Witness for C2: the general part applied at a concrete session with
unset `role`. -/
theorem c2_register_forbidden_witness :
    (register [] ⟨some ⟨1, "root", "admin"⟩, none⟩ (some "user") (some "bob")
        (some "pw") 3).2 = .forbidden :=
  c2_register_forbidden_even_for_admin_session.2.2.1 []
    ⟨some ⟨1, "root", "admin"⟩, none⟩ (some "user") (some "bob") (some "pw") 3 rfl

/-- Counterexample to C3 as stated: with no session user at all,
`GET /api/accounts` is not rejected with 401 — its handler runs and
returns the account list (status 200). -/
theorem c3_accounts_route_unguarded :
    (handle ⟨[⟨1, "admin", "root", "pw"⟩], [], ⟨none, none⟩⟩ .listAccountsReq).2.1 = 200
    ∧ (handle ⟨[⟨1, "admin", "root", "pw"⟩], [], ⟨none, none⟩⟩ .listAccountsReq).2.2
        = .arr [accountViewToJ ⟨1, "admin", "root"⟩]
    ∧ (200 : Nat) ≠ 401 :=
  ⟨rfl, rfl, by decide⟩

/-- Claim C3, amended: the `requireLogin` guard is mounted only on the
`/api/donors` and `/api/donations` prefixes, so a request with no active
session user is rejected with 401 (state unchanged, handler not run) for
exactly the donor/donation routes; the three account-management routes
are not behind the guard and answer 200 even with no session user. -/
theorem c3_guard_only_donor_routes (st : AppState) (req : Request) (accId : Nat)
    (username role : Option String) (hs : st.sess.user = none) :
    (guarded req = true →
        handle st req = (st, 401, msgBody false "Unauthorized. Please log in."))
    ∧ (handle st .listAccountsReq).2.1 = 200
    ∧ (handle st (.updateAccountReq accId username role)).2.1 = 200
    ∧ (handle st (.deleteAccountReq accId)).2.1 = 200 := by
  have hn : st.sess.user.isNone = true := by simp [hs]
  refine ⟨fun hg => ?_, ?_, ?_, ?_⟩
  · simp [handle, hg, hn]
  · simp [handle, guarded]
  · simp [handle, guarded]
  · simp [handle, guarded]

/-- Witness for C3: a donor-route request with no session user rejected
with 401, and the accounts route answering 200, at concrete inputs. -/
theorem c3_guard_witness :
    handle ⟨[], [], ⟨none, none⟩⟩ (.listDonorsReq ⟨none, none, none, none, none, none⟩)
      = (⟨[], [], ⟨none, none⟩⟩, 401, msgBody false "Unauthorized. Please log in.")
    ∧ (handle ⟨[], [], ⟨none, none⟩⟩ .listAccountsReq).2.1 = 200 := by
  exact ⟨(c3_guard_only_donor_routes ⟨[], [], ⟨none, none⟩⟩
      (.listDonorsReq ⟨none, none, none, none, none, none⟩) 0 none none rfl).1 rfl,
    (c3_guard_only_donor_routes ⟨[], [], ⟨none, none⟩⟩
      (.listDonorsReq ⟨none, none, none, none, none, none⟩) 0 none none rfl).2.1⟩

/-- Claim C4: every donor returned by `GET /api/donors` carries
`totalDonation` equal to the sum of its donation amounts (an empty list
sums to 0), and with numeric `minTotal`/`maxTotal` (either may be
absent), the result keeps exactly the donors of the name/city-matched,
totals-augmented list whose total lies within the inclusive bounds. -/
theorem c4_totalDonation_and_inclusive_bounds (store : List Donor) (q : DonorQuery)
    (mi ma : Option Int)
    (hmin : q.minTotal = mi.map JSNum.num) (hmax : q.maxTotal = ma.map JSNum.num) :
    (∀ p ∈ listDonors store q, p.2 = (p.1.donations.map Donation.amount).sum)
    ∧ (∀ p, p ∈ listDonors store q ↔
        p ∈ augmented store q ∧ loOkB mi p.2 = true ∧ hiOkB ma p.2 = true) := by
  constructor
  · intro p hp
    have hpf := (mem_listDonors_iff store q p).1 hp
    have hpa : p ∈ augmented store q := (List.mem_filter.1 hpf).1
    rcases List.mem_map.1 hpa with ⟨d, _, hdp⟩
    rw [← hdp]
    rfl
  · intro p
    rw [mem_listDonors_iff, List.mem_filter,
        passesBounds_numeric q mi ma p.2 hmin hmax]
    simp [Bool.and_eq_true]

/-- Witness for C4: the spec's own example — Ann with donations 50 and 30
is returned with `totalDonation` 80 under `minTotal=60`. -/
theorem c4_bounds_witness :
    ((⟨1, "Ann", "", "Lyon", [⟨1, 50, ""⟩, ⟨2, 30, ""⟩]⟩, (80 : Int)) ∈
      listDonors [⟨1, "Ann", "", "Lyon", [⟨1, 50, ""⟩, ⟨2, 30, ""⟩]⟩]
        ⟨none, none, some (.num 60), none, none, none⟩) :=
  ((c4_totalDonation_and_inclusive_bounds
      [⟨1, "Ann", "", "Lyon", [⟨1, 50, ""⟩, ⟨2, 30, ""⟩]⟩]
      ⟨none, none, some (.num 60), none, none, none⟩ (some 60) none rfl rfl).2
    (⟨1, "Ann", "", "Lyon", [⟨1, 50, ""⟩, ⟨2, 30, ""⟩]⟩, (80 : Int))).mpr
    ⟨by decide, by decide, by decide⟩

/-- Claim C5: a provided `minTotal` or `maxTotal` that does not parse as a
number makes the pipeline compare against `NaN`; the comparison matches
no donor, so the request succeeds with an empty donor list (no
validation error is raised). -/
theorem c5_nan_bound_matches_nothing (store : List Donor) (q : DonorQuery)
    (h : q.minTotal = some JSNum.nan ∨ q.maxTotal = some JSNum.nan) :
    listDonors store q = [] := by
  have hf : (augmented store q).filter (fun p => passesBounds q p.2) = [] := by
    rw [List.filter_eq_nil_iff]
    intro p _
    rcases h with h | h
    · simp [passesBounds, h, geJS]
    · simp [passesBounds, h, leJS]
  unfold listDonors
  cases hs : q.sortBy <;> simp [hf]

/-- Witness for C5: a store with a donor, a non-numeric `minTotal`, an
empty result. -/
theorem c5_nan_witness :
    listDonors [⟨1, "Ann", "", "Lyon", [⟨1, 50, ""⟩, ⟨2, 30, ""⟩]⟩]
      ⟨none, none, some JSNum.nan, none, none, none⟩ = [] :=
  c5_nan_bound_matches_nothing _ _ (Or.inl rfl)

/-- Claim C6: `PUT /api/donors/:donorId/donations/:donationId` answers
`NotFound` exactly when the donor, or the donation within the found
donor, is missing; on success only the targeted donation is replaced —
its absent fields keep their prior values, supplied fields are
overwritten, the donations before and after it are unchanged, and the
donor's name/address/city are unchanged. -/
theorem c6_updateDonation_partial_update (store : List Donor) (donorId donationId : Nat)
    (amount : Option Int) (date : Option String) :
    ((updateDonation store donorId donationId amount date).2 = .donorNotFound
        ↔ findDonor store donorId = none)
    ∧ (∀ donor, findDonor store donorId = some donor →
        (((updateDonation store donorId donationId amount date).2 = .donationNotFound)
            ↔ donor.donations.find? (fun dn => dn.id == donationId) = none)
        ∧ (∀ dn, donor.donations.find? (fun dn => dn.id == donationId) = some dn →
            ∃ pre post,
              donor.donations = pre ++ dn :: post
              ∧ (∀ x ∈ pre, ¬(x.id = donationId))
              ∧ updateDonation store donorId donationId amount date
                  = (saveDonor store
                       { donor with donations := pre ++ applyUpd amount date dn :: post },
                     .updated
                       { donor with donations := pre ++ applyUpd amount date dn :: post })
              ∧ ({ donor with donations := pre ++ applyUpd amount date dn :: post } : Donor).name
                  = donor.name
              ∧ ({ donor with donations := pre ++ applyUpd amount date dn :: post } : Donor).address
                  = donor.address
              ∧ ({ donor with donations := pre ++ applyUpd amount date dn :: post } : Donor).city
                  = donor.city
              ∧ (applyUpd amount date dn).id = dn.id
              ∧ (amount = none → (applyUpd amount date dn).amount = dn.amount)
              ∧ (date = none → (applyUpd amount date dn).date = dn.date)
              ∧ (∀ a, amount = some a → (applyUpd amount date dn).amount = a)
              ∧ (∀ s, date = some s → (applyUpd amount date dn).date = s))) := by
  constructor
  · cases hf : findDonor store donorId with
    | none => simp [updateDonation, hf]
    | some donor =>
        cases hd : donor.donations.find? (fun dn => dn.id == donationId) with
        | none => simp [updateDonation, hf, hd]
        | some dn => simp [updateDonation, hf, hd]
  · intro donor hf
    constructor
    · cases hd : donor.donations.find? (fun dn => dn.id == donationId) with
      | none => simp [updateDonation, hf, hd]
      | some dn => simp [updateDonation, hf, hd]
    · intro dn hd
      rcases find?_split_updateFirst donationId (applyUpd amount date)
          donor.donations dn hd with ⟨pre, post, h1, h2, h3, h4⟩
      refine ⟨pre, post, h1, h2, ?_, rfl, rfl, rfl, rfl, ?_, ?_, ?_, ?_⟩
      · simp [updateDonation, hf, hd, h4]
      · intro ha; simp [applyUpd, ha]
      · intro hs; simp [applyUpd, hs]
      · intro a ha; simp [applyUpd, ha]
      · intro s hs; simp [applyUpd, hs]

/-- Witness for C6: updating donation 2 of a concrete donor with
`amount=99` and no `date` replaces just that donation, keeping its date. -/
theorem c6_updateDonation_witness :
    ∃ pre post,
      ([⟨1, 50, "a"⟩, ⟨2, 30, "b"⟩] : List Donation) = pre ++ ⟨2, 30, "b"⟩ :: post
      ∧ (∀ x ∈ pre, ¬(x.id = 2))
      ∧ updateDonation [⟨1, "Ann", "A", "L", [⟨1, 50, "a"⟩, ⟨2, 30, "b"⟩]⟩] 1 2
            (some 99) none
          = (saveDonor [⟨1, "Ann", "A", "L", [⟨1, 50, "a"⟩, ⟨2, 30, "b"⟩]⟩]
               { (⟨1, "Ann", "A", "L", [⟨1, 50, "a"⟩, ⟨2, 30, "b"⟩]⟩ : Donor) with
                   donations := pre ++ applyUpd (some 99) none ⟨2, 30, "b"⟩ :: post },
             .updated
               { (⟨1, "Ann", "A", "L", [⟨1, 50, "a"⟩, ⟨2, 30, "b"⟩]⟩ : Donor) with
                   donations := pre ++ applyUpd (some 99) none ⟨2, 30, "b"⟩ :: post })
      ∧ ({ (⟨1, "Ann", "A", "L", [⟨1, 50, "a"⟩, ⟨2, 30, "b"⟩]⟩ : Donor) with
             donations := pre ++ applyUpd (some 99) none ⟨2, 30, "b"⟩ :: post } : Donor).name
          = "Ann"
      ∧ ({ (⟨1, "Ann", "A", "L", [⟨1, 50, "a"⟩, ⟨2, 30, "b"⟩]⟩ : Donor) with
             donations := pre ++ applyUpd (some 99) none ⟨2, 30, "b"⟩ :: post } : Donor).address
          = "A"
      ∧ ({ (⟨1, "Ann", "A", "L", [⟨1, 50, "a"⟩, ⟨2, 30, "b"⟩]⟩ : Donor) with
             donations := pre ++ applyUpd (some 99) none ⟨2, 30, "b"⟩ :: post } : Donor).city
          = "L"
      ∧ (applyUpd (some 99) none ⟨2, 30, "b"⟩).id = 2
      ∧ ((some 99 : Option Int) = none → (applyUpd (some 99) none ⟨2, 30, "b"⟩).amount = 30)
      ∧ ((none : Option String) = none → (applyUpd (some 99) none ⟨2, 30, "b"⟩).date = "b")
      ∧ (∀ a, (some 99 : Option Int) = some a → (applyUpd (some 99) none ⟨2, 30, "b"⟩).amount = a)
      ∧ (∀ s, (none : Option String) = some s → (applyUpd (some 99) none ⟨2, 30, "b"⟩).date = s) := by
  exact (c6_updateDonation_partial_update
      [⟨1, "Ann", "A", "L", [⟨1, 50, "a"⟩, ⟨2, 30, "b"⟩]⟩] 1 2 (some 99) none).2
    ⟨1, "Ann", "A", "L", [⟨1, 50, "a"⟩, ⟨2, 30, "b"⟩]⟩ rfl |>.2 ⟨2, 30, "b"⟩ rfl

/-- Claim C7: no read response carries an account password.
`GET /api/accounts` is insensitive to every password field (rewriting all
stored passwords does not change its output, whose element type has no
password field), and the `user` object a successful login returns is
exactly the `{id, username, role}` triple of the matched account. -/
theorem c7_no_password_in_read_responses (store : List Account) (f : Account → String)
    (sess : Session) (username password : Option String) :
    listAccounts (store.map (fun a => { a with password := f a })) = listAccounts store
    ∧ ∀ sess2 usr, login store sess username password = (sess2, .ok usr) →
        ∃ s acc, username = some s ∧ findAccount store (jsTrim s) = some acc
          ∧ usr = ⟨acc.id, acc.username, acc.role⟩ := by
  constructor
  · simp [listAccounts, List.map_map]
    intro a _
    rfl
  · intro sess2 usr h
    cases username with
    | none => simp [login] at h
    | some s =>
        refine ⟨s, ?_⟩
        cases hf : findAccount store (jsTrim s) with
        | none => simp [login, hf] at h
        | some acc =>
            by_cases hp : password = some acc.password
            · simp [login, hf, hp] at h
              exact ⟨acc, rfl, rfl, h.2.symm⟩
            · simp [login, hf, hp] at h

/-- Witness for C7: both parts at a concrete store and a concrete
successful login. -/
theorem c7_no_password_witness :
    listAccounts (([⟨1, "admin", "root", "pw"⟩] : List Account).map
        (fun a => { a with password := "X" }))
      = listAccounts [⟨1, "admin", "root", "pw"⟩]
    ∧ ∃ s acc, (some "root" : Option String) = some s
        ∧ findAccount [⟨1, "admin", "root", "pw"⟩] (jsTrim s) = some acc
        ∧ (⟨1, "root", "admin"⟩ : SessionUser) = ⟨acc.id, acc.username, acc.role⟩ := by
  exact ⟨(c7_no_password_in_read_responses [⟨1, "admin", "root", "pw"⟩] (fun _ => "X")
      ⟨none, none⟩ (some "root") (some "pw")).1,
   (c7_no_password_in_read_responses [⟨1, "admin", "root", "pw"⟩] (fun _ => "X")
      ⟨none, none⟩ (some "root") (some "pw")).2
      (Session.mk (some (SessionUser.mk 1 "root" "admin")) none)
      (SessionUser.mk 1 "root" "admin") rfl⟩

/-- Counterexample to C8 as stated: `GET /api/accounts` responds with a
bare JSON array (`res.json(accounts)`), which is not an object and
carries no `success` field — even for a logged-in caller. -/
theorem c8_accounts_body_not_enveloped :
    envelopeOk (handle ⟨[⟨1, "admin", "root", "pw"⟩], [],
        ⟨some ⟨1, "root", "admin"⟩, none⟩⟩ .listAccountsReq).2.2 = false := rfl

/-- Claim C8, amended: every JSON API endpoint except `GET /api/accounts`
responds, on every state and input, with a JSON object containing a
boolean `success` and either a `message` or a data payload; the accounts
list endpoint instead returns a bare array of password-less accounts. -/
theorem c8_envelope_except_accounts (st : AppState) (req : Request)
    (h : req ≠ .listAccountsReq) :
    envelopeOk (handle st req).2.2 = true := by
  cases req with
  | listAccountsReq => exact absurd rfl h
  | registerReq role username password freshId =>
      simp [handle, guarded, envelopeOk_registerStatusBody]
  | loginReq username password =>
      simp [handle, guarded, envelopeOk_loginStatusBody]
  | logoutReq => simp [handle, guarded, envelopeOk_msgBody]
  | listDonorsReq q =>
      by_cases hn : st.sess.user.isNone = true <;>
        simp [handle, guarded, hn, envelopeOk_msgBody, envelopeOk_dataBody_donors]
  | deleteDonorReq donorId =>
      by_cases hn : st.sess.user.isNone = true <;>
        simp [handle, guarded, hn, envelopeOk_msgBody, envelopeOk_deleteDonorStatusBody]
  | addDonationReq donorId amount date freshId =>
      by_cases hn : st.sess.user.isNone = true <;>
        simp [handle, guarded, hn, envelopeOk_msgBody, envelopeOk_donorStatusBody]
  | updateDonationReq donorId donationId amount date =>
      by_cases hn : st.sess.user.isNone = true <;>
        simp [handle, guarded, hn, envelopeOk_msgBody, envelopeOk_updStatusBody]
  | removeDonationReq donorId donationId =>
      by_cases hn : st.sess.user.isNone = true <;>
        simp [handle, guarded, hn, envelopeOk_msgBody, envelopeOk_donorStatusBody]
  | updateAccountReq accId username role =>
      simp [handle, guarded, envelopeOk_msgBody]
  | deleteAccountReq accId =>
      simp [handle, guarded, envelopeOk_msgBody]

/-- Witness for C8: the logout endpoint's response satisfies the
envelope. -/
theorem c8_envelope_witness :
    envelopeOk (handle ⟨[], [], ⟨none, none⟩⟩ .logoutReq).2.2 = true :=
  c8_envelope_except_accounts ⟨[], [], ⟨none, none⟩⟩ .logoutReq (by decide)

/-- Claim C9: a login request whose body has no `username` makes
`username.trim()` throw, so the route answers HTTP 500 with message
"Server error" (not 401, not a validation response) and the session — in
fact the whole server state — is unchanged. -/
theorem c9_login_undefined_username_500 (st : AppState) (password : Option String) :
    handle st (.loginReq none password) = (st, 500, msgBody false "Server error") := by
  simp [handle, guarded, login, loginStatusBody]

/-- Claim C10: each donor-mutating operation targeting donor id `X`
(donor delete, donation add/update/remove) leaves the sub-store of
donors whose id differs from `X` — including their donation lists —
exactly as it was. -/
theorem c10_mutations_preserve_other_donors (store : List Donor)
    (donorId donationId freshId : Nat) (amount : Int) (date : String)
    (amt : Option Int) (dt : Option String) :
    restNe donorId (deleteDonor store donorId).1 = restNe donorId store
    ∧ restNe donorId (addDonation store donorId amount date freshId).1 = restNe donorId store
    ∧ restNe donorId (updateDonation store donorId donationId amt dt).1 = restNe donorId store
    ∧ restNe donorId (removeDonation store donorId donationId).1 = restNe donorId store := by
  refine ⟨?_, ?_, ?_, ?_⟩
  · cases hf : findDonor store donorId with
    | none => simp [deleteDonor, hf]
    | some donor => simp [deleteDonor, hf, restNe, List.filter_filter]
  · cases hf : findDonor store donorId with
    | none => simp [addDonation, hf]
    | some donor =>
        simp only [addDonation, hf]
        have hid := findDonor_id store donorId donor hf
        exact restNe_saveDonor _ _ _ hid
  · cases hf : findDonor store donorId with
    | none => simp [updateDonation, hf]
    | some donor =>
        cases hd : donor.donations.find? (fun dn => dn.id == donationId) with
        | none => simp [updateDonation, hf, hd]
        | some dn =>
            simp only [updateDonation, hf, hd]
            have hid := findDonor_id store donorId donor hf
            exact restNe_saveDonor _ _ _ hid
  · cases hf : findDonor store donorId with
    | none => simp [removeDonation, hf]
    | some donor =>
        simp only [removeDonation, hf]
        have hid := findDonor_id store donorId donor hf
        exact restNe_saveDonor _ _ _ hid

/-- Witness for C1: the digest/plaintext disequality of the general part,
at the concrete password of the failing input. -/
theorem c1_register_login_witness : bcryptHash "pw" ≠ "pw" :=
  c1_register_then_login_fails.2.2 "pw"
